import Mathlib

/-!
Shallow embedding of the credential-refresh and authenticated-request layer
of the gdocs-mcp repository (src/drive-client.ts) and of the OAuth callback
handler (google-handler.ts), together with proofs of the specified
properties.

Conventions of the embedding:
* JavaScript `Date.now()` is an explicit `now : Int` parameter (milliseconds).
* Every network exchange is an oracle value passed in: the token endpoint's
  response and the remote API's responses are inputs, and each function
  returns how many times it consulted each oracle, so "exactly one refresh
  exchange" is a statement about those counters.
* JavaScript truthiness on strings (`if (str)`) is `str ≠ ""`, and on
  optional strings it is `≠ none` and `≠ some ""`.
-/

/-- The `DriveApiError` class of src/drive-client.ts: an error carrying the
HTTP status and a message. -/
structure DriveApiError where
  status : Nat
  message : String
deriving DecidableEq, Repr

/-- The mutable fields of a `DriveClient` that the refresh path reads and
writes: `currentAccessToken`, `tokenExpiry`, and `config.refreshToken`
(`config.clientId` / `config.clientSecret` are only forwarded to the wire
and are omitted). -/
structure ClientState where
  currentAccessToken : String
  tokenExpiry : Int
  refreshToken : String
deriving DecidableEq, Repr

/-- Oracle for one `fetch(TOKEN_URL, ...)` exchange: the HTTP status, the
body as text (what `res.text()` yields on the error path) and the parsed
JSON fields (what `res.json()` yields on the success path). -/
structure TokenEndpointResponse where
  status : Nat
  bodyText : String
  access_token : String
  expires_in : Int
  refresh_token : Option String
deriving DecidableEq, Repr

/-- The `res.ok` predicate of the fetch API: status in [200, 300). -/
def httpOk (status : Nat) : Bool :=
  200 ≤ status && status < 300

/-- JavaScript string-truthiness for an optional field (`if (x)` on
`string | undefined`): present and non-empty. -/
def truthy : Option String → Bool
  | none => false
  | some s => s ≠ ""

/-- Split a character sequence at the first occurrence of `d`, returning the
part before and the part after (none when `d` does not occur). -/
def splitFirst (d : List Char) : List Char → Option (List Char × List Char)
  | [] => if d.isPrefixOf ([] : List Char) then some ([], []) else none
  | c :: cs =>
    if d.isPrefixOf (c :: cs) then some ([], (c :: cs).drop d.length)
    else (splitFirst d cs).map fun p => (c :: p.1, p.2)

/-- `d` occurs somewhere in `s`. -/
def containsSeq (d s : List Char) : Bool := (splitFirst d s).isSome

/-- Remove a mandatory leading sequence, failing when it is not there. -/
def stripLeading (p s : List Char) : Option (List Char) :=
  if p.isPrefixOf s then some (s.drop p.length) else none

/-- JavaScript `String.prototype.includes`: `pat` occurs in `s`. -/
def strIncludes (s pat : String) : Bool :=
  containsSeq pat.data s.data

/-- The error thrown when the token is expired and no refresh token is
available (drive-client.ts lines 38-43). -/
def ErrNoRefreshToken : DriveApiError :=
  { status := 401, message := "Access token expired and no refresh token available" }

/-- The error thrown on a 400 token-endpoint response whose body mentions
`invalid_grant` (drive-client.ts lines 58-63). -/
def ErrCredentialRevoked (errorText : String) : DriveApiError :=
  { status := 401
    message := "Google refresh token is invalid or revoked (" ++ errorText ++ ")" }

/-- The error thrown on any other non-2xx token-endpoint response
(drive-client.ts lines 64-67). -/
def ErrRefreshFailed (status : Nat) (errorText : String) : DriveApiError :=
  { status := status, message := "Token refresh failed: " ++ errorText }

/-- Result of `getAccessToken`: the returned token or thrown error, the
client state after the call, and the number of token-endpoint exchanges
performed (0 or 1). -/
structure TokenResult where
  result : Except DriveApiError String
  state : ClientState
  refreshCalls : Nat
deriving Repr

/-- `DriveClient.getAccessToken` (drive-client.ts lines 33-82).
If not forced and the cached token is truthy and unexpired, return it with
no network call; otherwise throw if no refresh token, else perform one
refresh exchange against the token endpoint (`resp` is its response):
non-2xx maps to `ErrCredentialRevoked` (400 + `invalid_grant` in the body)
or `ErrRefreshFailed`; on success install the new access token, rotate the
refresh token only when the response carries a truthy one, and set
`tokenExpiry = now + (expires_in - 60) * 1000`. -/
def getAccessToken (forceRefresh : Bool) (now : Int)
    (resp : TokenEndpointResponse) (st : ClientState) : TokenResult :=
  if !forceRefresh && st.currentAccessToken ≠ "" && now < st.tokenExpiry then
    { result := .ok st.currentAccessToken, state := st, refreshCalls := 0 }
  else if st.refreshToken = "" then
    { result := .error ErrNoRefreshToken, state := st, refreshCalls := 0 }
  else if !httpOk resp.status then
    if resp.status = 400 && strIncludes resp.bodyText "invalid_grant" then
      { result := .error (ErrCredentialRevoked resp.bodyText), state := st, refreshCalls := 1 }
    else
      { result := .error (ErrRefreshFailed resp.status resp.bodyText), state := st, refreshCalls := 1 }
  else
    { result := .ok resp.access_token
      state :=
        { currentAccessToken := resp.access_token
          refreshToken := if truthy resp.refresh_token then resp.refresh_token.getD st.refreshToken else st.refreshToken
          tokenExpiry := now + (resp.expires_in - 60) * 1000 }
      refreshCalls := 1 }

/-- Oracle for one remote-API `fetch`: the status, the `statusText`, whether
the body parses as JSON (`res.json()` succeeding), and the body's
`error.message` field when present. -/
structure RemoteResponse where
  status : Nat
  statusText : String
  bodyIsJson : Bool
  errorMessage : Option String
deriving DecidableEq, Repr

/-- The message extracted from a failed remote response (drive-client.ts
lines 103-110): `data?.error?.message ?? res.statusText`, falling back to
`statusText` when the body is not JSON. -/
def remoteErrMessage (r : RemoteResponse) : String :=
  if r.bodyIsJson then
    match r.errorMessage with
    | some m => m
    | none => r.statusText
  else r.statusText

/-- Result of `request`: the response or thrown error, the client state
after the call, the number of remote-API calls, and the number of
token-endpoint exchanges. -/
structure RequestResult where
  result : Except DriveApiError RemoteResponse
  state : ClientState
  remoteCalls : Nat
  refreshCalls : Nat
deriving Repr

/-- `DriveClient.request` (drive-client.ts lines 84-115).
Obtain a token via a non-forced `getAccessToken` (its refresh exchange, if
any, uses `tokResp1`), issue the request (`resp1`); on a 401 force a refresh
(`tokResp2`) and reissue exactly once (`resp2`); a final non-2xx response is
surfaced as `DriveApiError` with the status and the extracted message. -/
def request (now : Int) (tokResp1 tokResp2 : TokenEndpointResponse)
    (resp1 resp2 : RemoteResponse) (st : ClientState) : RequestResult :=
  match getAccessToken false now tokResp1 st with
  | { result := .error e, state := st1, refreshCalls := k } =>
    { result := .error e, state := st1, remoteCalls := 0, refreshCalls := k }
  | { result := .ok _, state := st1, refreshCalls := k } =>
    if resp1.status = 401 then
      match getAccessToken true now tokResp2 st1 with
      | { result := .error e, state := st2, refreshCalls := k2 } =>
        { result := .error e, state := st2, remoteCalls := 1, refreshCalls := k + k2 }
      | { result := .ok _, state := st2, refreshCalls := k2 } =>
        if httpOk resp2.status then
          { result := .ok resp2, state := st2, remoteCalls := 2, refreshCalls := k + k2 }
        else
          { result := .error { status := resp2.status, message := remoteErrMessage resp2 }
            state := st2, remoteCalls := 2, refreshCalls := k + k2 }
    else if httpOk resp1.status then
      { result := .ok resp1, state := st1, remoteCalls := 1, refreshCalls := k }
    else
      { result := .error { status := resp1.status, message := remoteErrMessage resp1 }
        state := st1, remoteCalls := 1, refreshCalls := k }

/-- The CRLF separator used by the multipart encoder. -/
def crlf : String := "\r\n"

/-- JavaScript `Array.prototype.join("\r\n")`. -/
def joinCRLF : List String → String
  | [] => ""
  | [x] => x
  | x :: xs => x ++ crlf ++ joinCRLF xs

/-- The fixed boundary of `buildMultipart` (drive-client.ts line 148). -/
def mpBoundary : String := "-----gdrive-mcp-boundary"

/-- `DriveClient.buildMultipart` (drive-client.ts lines 143-161), over the
already-serialised metadata (`JSON.stringify(metadata)` is `metadataJson`
here): the CRLF-joined two-part body and the content-type header declaring
the boundary. -/
def buildMultipart (metadataJson content contentType : String) : String × String :=
  let boundary := mpBoundary
  let body := joinCRLF [
    "--" ++ boundary,
    "Content-Type: application/json; charset=UTF-8",
    "",
    metadataJson,
    "--" ++ boundary,
    "Content-Type: " ++ contentType,
    "",
    content,
    "--" ++ boundary ++ "--"]
  (body, "multipart/related; boundary=" ++ boundary)

/-- The part delimiter of the multipart body: CRLF followed by the dashed
boundary, as mandated for multipart/related bodies. -/
def delimL : List Char := crlf.data ++ "--".data ++ mpBoundary.data

/-- Everything a well-formed body starts with, up to and including the blank
line that ends the first part's headers. -/
def part1Pre : List Char :=
  "--".data ++ mpBoundary.data ++ crlf.data
    ++ "Content-Type: application/json; charset=UTF-8".data ++ crlf.data ++ crlf.data

/-- The header lead-in of the second part, following the first delimiter. -/
def ctPre : List Char := crlf.data ++ "Content-Type: ".data

/-- The blank line separating a part's headers from its body. -/
def sepL : List Char := crlf.data ++ crlf.data

/-- Decoder for the multipart body, following the spec's description of the
shape (§4.3: CRLF-separated parts, boundary declared in the content-type
header, first part `application/json`, second part the caller's content
type): splits the body at the boundary delimiters and each part at the
blank line after its headers, recovering (metadata JSON, content type,
content). The repository itself only encodes; this is the standard
multipart parse that the spec's round-trip property refers to. -/
def decodeMultipart (body : List Char) : Option (List Char × List Char × List Char) :=
  match splitFirst delimL body with
  | none => none
  | some (pre1, rest1) =>
    match stripLeading part1Pre pre1 with
    | none => none
    | some meta =>
      match splitFirst delimL rest1 with
      | none => none
      | some (pre2, rest2) =>
        match stripLeading ctPre pre2 with
        | none => none
        | some hdrAndContent =>
          match splitFirst sepL hdrAndContent with
          | none => none
          | some (ct, content) =>
            if rest2 = ['-', '-'] then some (meta, ct, content) else none

/-- The transient pending-authorization store (`env.OAUTH_KV`): an
association list from keys to stored values. Lookups compare full keys. -/
def KVStore := List (String × String)

/-- `OAUTH_KV.get`. -/
def kvGet (kv : KVStore) (k : String) : Option String :=
  match List.find? (fun p => p.1 = k) kv with
  | some p => some p.2
  | none => none

/-- `OAUTH_KV.delete`. -/
def kvDelete (kv : KVStore) (k : String) : KVStore :=
  List.filter (fun p => ¬ p.1 = k) kv

/-- `OAUTH_KV.put`. -/
def kvPut (kv : KVStore) (k v : String) : KVStore :=
  (k, v) :: kvDelete kv k

/-- The KV key under which the pending state for `stateKey` is stored
(google-handler.ts: `google_oauth_state:` ++ stateKey). -/
def stateKVKey (stateKey : String) : String :=
  "google_oauth_state:" ++ stateKey

/-- The query parameters of the provider's callback request, each `none`
when absent from the URL. -/
structure CallbackParams where
  error : Option String
  error_description : Option String
  code : Option String
  state : Option String
deriving DecidableEq, Repr

/-- Oracle for the authorization-code token exchange
(`fetch(GOOGLE_TOKEN_URL, ...)` in the callback). -/
structure AuthCodeTokenResponse where
  status : Nat
  bodyText : String
  access_token : String
  refresh_token : Option String
  expires_in : Int
deriving DecidableEq, Repr

/-- Oracle for the user-info fetch (`fetch(GOOGLE_USERINFO_URL, ...)`). -/
structure UserInfoResponse where
  status : Nat
  id : String
  email : String
  name : String
deriving DecidableEq, Repr

/-- The observable outcome of `handleCallback`: which response is produced,
with the data that response carries. `success` carries the subject id, the
metadata, and the credential pair handed to `completeAuthorization`. -/
inductive CallbackOutcome where
  | oauthError (desc : String)
  | missingParams
  | invalidState
  | tokenExchangeFailed (text : String)
  | missingRefreshToken
  | userInfoFailed
  | success (userId email name accessToken refreshToken : String) (expiresAt : Int)
deriving DecidableEq, Repr

/-- Result of `handleCallback`: the outcome, the KV store after the call,
and the number of token-endpoint calls made. -/
structure CallbackResult where
  outcome : CallbackOutcome
  kv : KVStore
  tokenCalls : Nat

/-- `handleCallback` (google-handler.ts lines 61-151).
Reject an explicit provider error; require `code` and `state`; look up the
pending state under `google_oauth_state:` ++ state, failing with the
invalid-or-expired-state response when absent, and delete it; then exchange
the code (`tokResp`), require a refresh token, fetch user info (`userResp`),
and complete the authorization with the initial credential pair
(`expiresAt = now + expires_in * 1000`). -/
def handleCallback (p : CallbackParams) (now : Int)
    (tokResp : AuthCodeTokenResponse) (userResp : UserInfoResponse)
    (kv : KVStore) : CallbackResult :=
  if truthy p.error then
    { outcome := .oauthError (p.error_description.getD (p.error.getD ""))
      kv := kv, tokenCalls := 0 }
  else if !truthy p.code || !truthy p.state then
    { outcome := .missingParams, kv := kv, tokenCalls := 0 }
  else
    let stateKey := p.state.getD ""
    match kvGet kv (stateKVKey stateKey) with
    | none => { outcome := .invalidState, kv := kv, tokenCalls := 0 }
    | some _ =>
      let kv1 := kvDelete kv (stateKVKey stateKey)
      if !httpOk tokResp.status then
        { outcome := .tokenExchangeFailed tokResp.bodyText, kv := kv1, tokenCalls := 1 }
      else if !truthy tokResp.refresh_token then
        { outcome := .missingRefreshToken, kv := kv1, tokenCalls := 1 }
      else if !httpOk userResp.status then
        { outcome := .userInfoFailed, kv := kv1, tokenCalls := 1 }
      else
        { outcome := .success userResp.id userResp.email userResp.name
            tokResp.access_token (tokResp.refresh_token.getD "")
            (now + tokResp.expires_in * 1000)
          kv := kv1, tokenCalls := 1 }

/-! ## Helper lemmas about `getAccessToken` -/

/-- Fast path: cached non-empty token, not yet expired, not forced. -/
theorem getAccessToken_fastPath (now : Int) (resp : TokenEndpointResponse)
    (st : ClientState) (hTok : st.currentAccessToken ≠ "")
    (hFresh : now < st.tokenExpiry) :
    getAccessToken false now resp st =
      { result := .ok st.currentAccessToken, state := st, refreshCalls := 0 } := by
  simp [getAccessToken, hTok, hFresh]

/-- When the fast path does not apply, the given Boolean guard is false. -/
theorem fastGuard_false (forceRefresh : Bool) (now : Int) (st : ClientState)
    (hNoFast : forceRefresh = true ∨ st.currentAccessToken = "" ∨ st.tokenExpiry ≤ now) :
    (!forceRefresh && st.currentAccessToken ≠ "" && now < st.tokenExpiry) = false := by
  rcases hNoFast with h | h | h
  · simp [h]
  · simp [h]
  · simp [not_lt.mpr h]

/-- Successful refresh exchange: new token installed, refresh token rotated
only when the response carries a truthy one, expiry set with the 60 s
margin. -/
theorem getAccessToken_refresh_ok (forceRefresh : Bool) (now : Int)
    (resp : TokenEndpointResponse) (st : ClientState)
    (hNoFast : forceRefresh = true ∨ st.currentAccessToken = "" ∨ st.tokenExpiry ≤ now)
    (hRt : st.refreshToken ≠ "") (hOk : httpOk resp.status = true) :
    getAccessToken forceRefresh now resp st =
      { result := .ok resp.access_token
        state :=
          { currentAccessToken := resp.access_token
            refreshToken := if truthy resp.refresh_token then resp.refresh_token.getD st.refreshToken else st.refreshToken
            tokenExpiry := now + (resp.expires_in - 60) * 1000 }
        refreshCalls := 1 } := by
  simp [getAccessToken, hRt, hOk]
  intro hf hne
  rcases hNoFast with h | h | h
  · exact absurd h (by simp [hf])
  · exact absurd h hne
  · exact h

/-- Refresh attempt with an empty refresh token: fails before any network
call. -/
theorem getAccessToken_noRefreshToken (forceRefresh : Bool) (now : Int)
    (resp : TokenEndpointResponse) (st : ClientState)
    (hNoFast : forceRefresh = true ∨ st.currentAccessToken = "" ∨ st.tokenExpiry ≤ now)
    (hRt : st.refreshToken = "") :
    getAccessToken forceRefresh now resp st =
      { result := .error ErrNoRefreshToken, state := st, refreshCalls := 0 } := by
  simp [getAccessToken, hRt]
  intro hf hne
  rcases hNoFast with h | h | h
  · exact absurd h (by simp [hf])
  · exact absurd h hne
  · exact h

/-- Refresh rejected with status 400 and an `invalid_grant` body. -/
theorem getAccessToken_refresh_revoked (forceRefresh : Bool) (now : Int)
    (resp : TokenEndpointResponse) (st : ClientState)
    (hNoFast : forceRefresh = true ∨ st.currentAccessToken = "" ∨ st.tokenExpiry ≤ now)
    (hRt : st.refreshToken ≠ "") (h400 : resp.status = 400)
    (hInv : strIncludes resp.bodyText "invalid_grant" = true) :
    getAccessToken forceRefresh now resp st =
      { result := .error (ErrCredentialRevoked resp.bodyText), state := st, refreshCalls := 1 } := by
  simp [getAccessToken, hRt, h400, hInv, httpOk]
  intro hf hne
  rcases hNoFast with h | h | h
  · exact absurd h (by simp [hf])
  · exact absurd h hne
  · exact h

/-- Refresh rejected by any other non-2xx response. -/
theorem getAccessToken_refresh_failed (forceRefresh : Bool) (now : Int)
    (resp : TokenEndpointResponse) (st : ClientState)
    (hNoFast : forceRefresh = true ∨ st.currentAccessToken = "" ∨ st.tokenExpiry ≤ now)
    (hRt : st.refreshToken ≠ "") (hBad : httpOk resp.status = false)
    (hNotInv : ¬ (resp.status = 400 ∧ strIncludes resp.bodyText "invalid_grant" = true)) :
    getAccessToken forceRefresh now resp st =
      { result := .error (ErrRefreshFailed resp.status resp.bodyText), state := st, refreshCalls := 1 } := by
  have hg : (resp.status = 400 && strIncludes resp.bodyText "invalid_grant") = false := by
    rcases Decidable.em (resp.status = 400) with h4 | h4
    · rcases Decidable.em (strIncludes resp.bodyText "invalid_grant" = true) with hi | hi
      · exact absurd ⟨h4, hi⟩ hNotInv
      · simp [Bool.eq_false_iff.mpr hi]
    · simp [h4]
  simp only [getAccessToken, fastGuard_false forceRefresh now st hNoFast, hRt, hBad, hg]
  simp

/-! ## Claims about the credential refresher -/

/-- C2: for every credential pair with `now ≥ expiresAt` and a non-empty
refresh token, a non-forced `getValidAccessToken` performs exactly one
refresh exchange, and the resulting pair's expiry is
`now + (expires_in - 60) * 1000` milliseconds, i.e. sixty seconds before the
provider-reported expiry. -/
theorem expiredPair_refreshesOnce_withMargin (now : Int)
    (resp : TokenEndpointResponse) (st : ClientState)
    (hExp : st.tokenExpiry ≤ now) (hRt : st.refreshToken ≠ "")
    (hOk : httpOk resp.status = true) :
    (getAccessToken false now resp st).refreshCalls = 1 ∧
    (getAccessToken false now resp st).state.tokenExpiry
      = now + (resp.expires_in - 60) * 1000 := by
  rw [getAccessToken_refresh_ok false now resp st (Or.inr (Or.inr hExp)) hRt hOk]
  exact ⟨rfl, rfl⟩

/-- Witness for C2 at a concrete expired pair. -/
theorem expiredPair_refreshesOnce_withMargin_witness :
    (getAccessToken false 1000 ⟨200, "", "newtok", 3600, none⟩ ⟨"old", 500, "rt"⟩).refreshCalls = 1 ∧
    (getAccessToken false 1000 ⟨200, "", "newtok", 3600, none⟩ ⟨"old", 500, "rt"⟩).state.tokenExpiry
      = 1000 + (3600 - 60) * 1000 :=
  expiredPair_refreshesOnce_withMargin 1000 ⟨200, "", "newtok", 3600, none⟩ ⟨"old", 500, "rt"⟩
    (by decide) (by decide) (by decide)

/-- C3 counterexample: a pair that is not yet expired (`now < expiresAt`)
but whose cached access token is the empty string does trigger a refresh
exchange, so the claim "every pair with `now < expiresAt` sees zero network
calls" is false as stated. -/
theorem freshPair_zeroCalls_cex :
    (0 : Int) < (⟨"", 1000, "rt"⟩ : ClientState).tokenExpiry ∧
    (getAccessToken false 0 ⟨200, "", "newtok", 3600, none⟩ ⟨"", 1000, "rt"⟩).refreshCalls ≠ 0 := by
  exact ⟨by decide, by decide⟩

/-- C3 (amended): for every credential pair with `now < expiresAt` whose
cached access token is non-empty, a non-forced `getValidAccessToken`
performs zero network calls and returns the access token with the pair
entirely unmodified. -/
theorem freshPair_zeroCalls_unchanged (now : Int)
    (resp : TokenEndpointResponse) (st : ClientState)
    (hTok : st.currentAccessToken ≠ "") (hFresh : now < st.tokenExpiry) :
    getAccessToken false now resp st =
      { result := .ok st.currentAccessToken, state := st, refreshCalls := 0 } :=
  getAccessToken_fastPath now resp st hTok hFresh

/-- Witness for the amended C3 at a concrete fresh pair. -/
theorem freshPair_zeroCalls_unchanged_witness :
    getAccessToken false 0 ⟨200, "", "newtok", 3600, none⟩ ⟨"tok", 1000, "rt"⟩ =
      { result := .ok "tok", state := ⟨"tok", 1000, "rt"⟩, refreshCalls := 0 } :=
  freshPair_zeroCalls_unchanged 0 ⟨200, "", "newtok", 3600, none⟩ ⟨"tok", 1000, "rt"⟩
    (by decide) (by decide)

/-- C8: a pair whose cached access token is the empty string refreshes even
when `now < expiresAt` (provided a refresh token exists): the fast path
additionally requires a non-empty cached token. -/
theorem emptyToken_refreshesDespiteFreshExpiry (now : Int)
    (resp : TokenEndpointResponse) (st : ClientState)
    (hTok : st.currentAccessToken = "") (hRt : st.refreshToken ≠ "")
    (hFresh : now < st.tokenExpiry) :
    (getAccessToken false now resp st).refreshCalls = 1 := by
  by_cases hOk : httpOk resp.status = true
  · rw [getAccessToken_refresh_ok false now resp st (Or.inr (Or.inl hTok)) hRt hOk]
  · have hBad : httpOk resp.status = false := by
      revert hOk; cases httpOk resp.status <;> simp
    by_cases hInv : resp.status = 400 ∧ strIncludes resp.bodyText "invalid_grant" = true
    · rw [getAccessToken_refresh_revoked false now resp st (Or.inr (Or.inl hTok)) hRt hInv.1 hInv.2]
    · rw [getAccessToken_refresh_failed false now resp st (Or.inr (Or.inl hTok)) hRt hBad hInv]

/-- Witness for C8 at a concrete pair with an empty cached token. -/
theorem emptyToken_refreshesDespiteFreshExpiry_witness :
    (getAccessToken false 0 ⟨200, "", "newtok", 3600, none⟩ ⟨"", 1000, "rt"⟩).refreshCalls = 1 :=
  emptyToken_refreshesDespiteFreshExpiry 0 ⟨200, "", "newtok", 3600, none⟩ ⟨"", 1000, "rt"⟩
    (by decide) (by decide) (by decide)

/-- C4: every refresh attempt (fast path unavailable) fails with
`ErrNoRefreshToken` and zero network calls when the refresh token is empty;
otherwise, on a non-2xx provider response, it fails with
`ErrCredentialRevoked` when the status is 400 and the body signals
`invalid_grant`, and with `ErrRefreshFailed` on any other non-2xx
response. -/
theorem refreshFailure_errorTaxonomy (forceRefresh : Bool) (now : Int)
    (resp : TokenEndpointResponse) (st : ClientState)
    (hNoFast : forceRefresh = true ∨ st.currentAccessToken = "" ∨ st.tokenExpiry ≤ now) :
    (st.refreshToken = "" →
      (getAccessToken forceRefresh now resp st).result = .error ErrNoRefreshToken ∧
      (getAccessToken forceRefresh now resp st).refreshCalls = 0) ∧
    (st.refreshToken ≠ "" → httpOk resp.status = false →
      ((resp.status = 400 ∧ strIncludes resp.bodyText "invalid_grant" = true →
        (getAccessToken forceRefresh now resp st).result
          = .error (ErrCredentialRevoked resp.bodyText)) ∧
       (¬ (resp.status = 400 ∧ strIncludes resp.bodyText "invalid_grant" = true) →
        (getAccessToken forceRefresh now resp st).result
          = .error (ErrRefreshFailed resp.status resp.bodyText)))) := by
  refine ⟨fun hRt => ?_, fun hRt hBad => ⟨fun hInv => ?_, fun hNotInv => ?_⟩⟩
  · rw [getAccessToken_noRefreshToken forceRefresh now resp st hNoFast hRt]
    exact ⟨rfl, rfl⟩
  · rw [getAccessToken_refresh_revoked forceRefresh now resp st hNoFast hRt hInv.1 hInv.2]
  · rw [getAccessToken_refresh_failed forceRefresh now resp st hNoFast hRt hBad hNotInv]

/-- Witness for C4: a forced refresh against a 500 response fails with
`ErrRefreshFailed`. -/
theorem refreshFailure_errorTaxonomy_witness :
    (getAccessToken true 0 ⟨500, "boom", "", 0, none⟩ ⟨"a", 0, "r"⟩).result
      = .error (ErrRefreshFailed 500 "boom") :=
  ((refreshFailure_errorTaxonomy true 0 ⟨500, "boom", "", 0, none⟩ ⟨"a", 0, "r"⟩
      (Or.inl rfl)).2 (by decide) (by decide)).2 (by decide)

/-- C7: on a successful refresh, when the provider response carries no
refresh token the resulting pair keeps the prior refresh token and only the
access token and the expiry change; when it carries a non-empty one, the
resulting pair's refresh token is the rotated value. -/
theorem refreshToken_rotation (forceRefresh : Bool) (now : Int)
    (resp : TokenEndpointResponse) (st : ClientState)
    (hNoFast : forceRefresh = true ∨ st.currentAccessToken = "" ∨ st.tokenExpiry ≤ now)
    (hRt : st.refreshToken ≠ "") (hOk : httpOk resp.status = true) :
    (resp.refresh_token = none →
      (getAccessToken forceRefresh now resp st).state =
        { currentAccessToken := resp.access_token
          tokenExpiry := now + (resp.expires_in - 60) * 1000
          refreshToken := st.refreshToken }) ∧
    (∀ rt, resp.refresh_token = some rt → rt ≠ "" →
      (getAccessToken forceRefresh now resp st).state.refreshToken = rt) := by
  rw [getAccessToken_refresh_ok forceRefresh now resp st hNoFast hRt hOk]
  constructor
  · intro hNone
    simp [hNone, truthy]
  · intro rt hSome hNe
    simp [hSome, truthy, hNe]

/-- Witness for C7: a refresh response carrying no refresh token keeps the
old one. -/
theorem refreshToken_rotation_witness :
    (getAccessToken false 1000 ⟨200, "", "newtok", 3600, none⟩ ⟨"old", 500, "oldRt"⟩).state =
      { currentAccessToken := "newtok"
        tokenExpiry := 1000 + (3600 - 60) * 1000
        refreshToken := "oldRt" } :=
  (refreshToken_rotation false 1000 ⟨200, "", "newtok", 3600, none⟩ ⟨"old", 500, "oldRt"⟩
    (Or.inr (Or.inr (by decide))) (by decide) (by decide)).1 rfl

/-! ## Claims about the authenticated request executor -/

/-- C1: starting from a valid cached token, a first remote response of 401
forces exactly one refresh exchange and exactly one reissue: a 2xx reissue
result is returned after two remote calls and one refresh, a second 401
surfaces as a typed failure with status 401 after two remote calls and one
refresh, and a non-401 first response never triggers a refresh. -/
theorem execute_401_retryOnce (now : Int) (t1 t2 : TokenEndpointResponse)
    (resp1 resp2 : RemoteResponse) (st : ClientState)
    (hTok : st.currentAccessToken ≠ "") (hFresh : now < st.tokenExpiry)
    (hRt : st.refreshToken ≠ "") (hOk2 : httpOk t2.status = true) :
    (resp1.status = 401 →
      (request now t1 t2 resp1 resp2 st).remoteCalls = 2 ∧
      (request now t1 t2 resp1 resp2 st).refreshCalls = 1 ∧
      (httpOk resp2.status = true →
        (request now t1 t2 resp1 resp2 st).result = .ok resp2) ∧
      (resp2.status = 401 →
        (request now t1 t2 resp1 resp2 st).result
          = .error { status := 401, message := remoteErrMessage resp2 })) ∧
    (resp1.status ≠ 401 →
      (request now t1 t2 resp1 resp2 st).refreshCalls = 0 ∧
      (request now t1 t2 resp1 resp2 st).remoteCalls = 1) := by
  have e1 := getAccessToken_fastPath now t1 st hTok hFresh
  have e2 := getAccessToken_refresh_ok true now t2 st (Or.inl rfl) hRt hOk2
  refine ⟨fun h401 => ⟨?_, ?_, fun hOkR => ?_, fun h401b => ?_⟩, fun hNot => ?_⟩
  · simp [request, e1, e2, h401]
    split <;> rfl
  · simp [request, e1, e2, h401]
    split <;> rfl
  · simp [request, e1, e2, h401, hOkR]
  · have hB : httpOk 401 = false := by decide
    simp [request, e1, e2, h401, h401b, hB]
  · by_cases hOk1 : httpOk resp1.status = true
    · constructor <;> simp [request, e1, hNot, hOk1]
    · have hB : httpOk resp1.status = false := by
        revert hOk1; cases httpOk resp1.status <;> simp
      constructor <;> simp [request, e1, hNot, hB]

/-- Witness for C1: a 401 followed by a 200 returns the 200 after two
remote calls and one refresh exchange. -/
theorem execute_401_retryOnce_witness :
    (request 0 ⟨200, "", "t1", 3600, none⟩ ⟨200, "", "t2", 3600, none⟩
      ⟨401, "Unauthorized", false, none⟩ ⟨200, "OK", true, none⟩
      ⟨"tok", 1000, "rt"⟩).remoteCalls = 2 ∧
    (request 0 ⟨200, "", "t1", 3600, none⟩ ⟨200, "", "t2", 3600, none⟩
      ⟨401, "Unauthorized", false, none⟩ ⟨200, "OK", true, none⟩
      ⟨"tok", 1000, "rt"⟩).refreshCalls = 1 ∧
    (request 0 ⟨200, "", "t1", 3600, none⟩ ⟨200, "", "t2", 3600, none⟩
      ⟨401, "Unauthorized", false, none⟩ ⟨200, "OK", true, none⟩
      ⟨"tok", 1000, "rt"⟩).result = .ok ⟨200, "OK", true, none⟩ := by
  have h := (execute_401_retryOnce 0 ⟨200, "", "t1", 3600, none⟩ ⟨200, "", "t2", 3600, none⟩
    ⟨401, "Unauthorized", false, none⟩ ⟨200, "OK", true, none⟩ ⟨"tok", 1000, "rt"⟩
    (by decide) (by decide) (by decide) (by decide)).1 rfl
  exact ⟨h.1, h.2.1, h.2.2.1 (by decide)⟩

/-- C10: every final non-2xx remote response surfaces as a `DriveApiError`
carrying that response's status, with the message taken from the JSON
body's `error.message` when the body parses as JSON and the field is
present, and the HTTP status text otherwise (including for malformed,
non-JSON bodies). -/
theorem remoteFailure_typedError (now : Int) (t1 t2 : TokenEndpointResponse)
    (resp1 resp2 : RemoteResponse) (st : ClientState)
    (hTok : st.currentAccessToken ≠ "") (hFresh : now < st.tokenExpiry)
    (hRt : st.refreshToken ≠ "") (hOk2 : httpOk t2.status = true) :
    (resp1.status ≠ 401 → httpOk resp1.status = false →
      (request now t1 t2 resp1 resp2 st).result =
        .error { status := resp1.status
                 message :=
                   if resp1.bodyIsJson then
                     match resp1.errorMessage with
                     | some m => m
                     | none => resp1.statusText
                   else resp1.statusText }) ∧
    (resp1.status = 401 → httpOk resp2.status = false →
      (request now t1 t2 resp1 resp2 st).result =
        .error { status := resp2.status
                 message :=
                   if resp2.bodyIsJson then
                     match resp2.errorMessage with
                     | some m => m
                     | none => resp2.statusText
                   else resp2.statusText }) := by
  have e1 := getAccessToken_fastPath now t1 st hTok hFresh
  have e2 := getAccessToken_refresh_ok true now t2 st (Or.inl rfl) hRt hOk2
  refine ⟨fun hNot hBad => ?_, fun h401 hBad => ?_⟩
  · simp [request, e1, hNot, hBad, remoteErrMessage]
  · simp [request, e1, e2, h401, hBad, remoteErrMessage]

/-- Witness for C10: a 404 with a non-JSON body yields a typed failure
carrying status 404 and the HTTP status text. -/
theorem remoteFailure_typedError_witness :
    (request 0 ⟨200, "", "t1", 3600, none⟩ ⟨200, "", "t2", 3600, none⟩
      ⟨404, "Not Found", false, none⟩ ⟨200, "OK", true, none⟩
      ⟨"tok", 1000, "rt"⟩).result =
        .error { status := 404, message := "Not Found" } :=
  (remoteFailure_typedError 0 ⟨200, "", "t1", 3600, none⟩ ⟨200, "", "t2", 3600, none⟩
    ⟨404, "Not Found", false, none⟩ ⟨200, "OK", true, none⟩ ⟨"tok", 1000, "rt"⟩
    (by decide) (by decide) (by decide) (by decide)).1 (by decide) (by decide)

/-! ## Helper lemmas about the pending-state store and `handleCallback` -/

/-- Deleting a key removes it from the store. -/
theorem kvGet_kvDelete (kv : KVStore) (k : String) :
    kvGet (kvDelete kv k) k = none := by
  induction kv with
  | nil => rfl
  | cons p t ih =>
    by_cases h : p.1 = k
    · simpa [kvDelete, h] using ih
    · simpa [kvDelete, kvGet, List.find?, h] using ih

/-- A callback whose state is absent from the store fails closed with the
invalid-state response, leaves the store unchanged, and performs no
token-endpoint call. -/
theorem handleCallback_absent (p : CallbackParams) (now : Int)
    (t : AuthCodeTokenResponse) (u : UserInfoResponse) (kv : KVStore)
    (hErr : truthy p.error = false) (hCode : truthy p.code = true)
    (hState : truthy p.state = true)
    (h : kvGet kv (stateKVKey (p.state.getD "")) = none) :
    handleCallback p now t u kv =
      { outcome := .invalidState, kv := kv, tokenCalls := 0 } := by
  simp [handleCallback, hErr, hCode, hState, h]

/-- A callback that finds its pending state deletes it and performs exactly
one token-endpoint call, whatever the exchange's outcome. -/
theorem handleCallback_found_kv (p : CallbackParams) (now : Int)
    (t : AuthCodeTokenResponse) (u : UserInfoResponse) (kv : KVStore) (v : String)
    (hErr : truthy p.error = false) (hCode : truthy p.code = true)
    (hState : truthy p.state = true)
    (hv : kvGet kv (stateKVKey (p.state.getD "")) = some v) :
    (handleCallback p now t u kv).kv = kvDelete kv (stateKVKey (p.state.getD "")) ∧
    (handleCallback p now t u kv).tokenCalls = 1 := by
  by_cases h1 : httpOk t.status = true <;>
    by_cases h2 : truthy t.refresh_token = true <;>
      by_cases h3 : httpOk u.status = true <;>
        simp [handleCallback, hErr, hCode, hState, hv, h1, h2, h3]

/-! ## Claims about the authorization callback -/

/-- C6: a callback with a state token absent from the pending store fails
with the invalid-or-expired-state response without contacting the token
endpoint; and when the state is found, the pending entry is deleted, so a
second callback with the same state fails with the invalid-or-expired-state
response (zero token-endpoint calls). -/
theorem callback_state_at_most_once (p : CallbackParams) (now now2 : Int)
    (t t2 : AuthCodeTokenResponse) (u u2 : UserInfoResponse) (kv : KVStore)
    (hErr : truthy p.error = false) (hCode : truthy p.code = true)
    (hState : truthy p.state = true) :
    (kvGet kv (stateKVKey (p.state.getD "")) = none →
      handleCallback p now t u kv =
        { outcome := .invalidState, kv := kv, tokenCalls := 0 }) ∧
    (∀ v, kvGet kv (stateKVKey (p.state.getD "")) = some v →
      kvGet ((handleCallback p now t u kv).kv) (stateKVKey (p.state.getD "")) = none ∧
      handleCallback p now2 t2 u2 ((handleCallback p now t u kv).kv) =
        { outcome := .invalidState, kv := (handleCallback p now t u kv).kv
          tokenCalls := 0 }) := by
  refine ⟨handleCallback_absent p now t u kv hErr hCode hState, fun v hv => ?_⟩
  have hkv := (handleCallback_found_kv p now t u kv v hErr hCode hState hv).1
  have hnone : kvGet ((handleCallback p now t u kv).kv) (stateKVKey (p.state.getD "")) = none := by
    rw [hkv]; exact kvGet_kvDelete kv (stateKVKey (p.state.getD ""))
  exact ⟨hnone, handleCallback_absent p now2 t2 u2 _ hErr hCode hState hnone⟩

/-- Witness for C6 at a concrete state token present in the store: the
second identical callback fails with the invalid-state response. -/
theorem callback_state_at_most_once_witness :
    kvGet ((handleCallback ⟨none, none, some "c", some "s"⟩ 0 ⟨200, "", "AT", some "RT", 3600⟩
        ⟨200, "u1", "a@b.com", "A"⟩ [("google_oauth_state:s", "req")]).kv)
      (stateKVKey ((some "s").getD "")) = none ∧
    handleCallback ⟨none, none, some "c", some "s"⟩ 0 ⟨200, "", "AT", some "RT", 3600⟩
        ⟨200, "u1", "a@b.com", "A"⟩
        ((handleCallback ⟨none, none, some "c", some "s"⟩ 0 ⟨200, "", "AT", some "RT", 3600⟩
          ⟨200, "u1", "a@b.com", "A"⟩ [("google_oauth_state:s", "req")]).kv) =
      { outcome := .invalidState
        kv := (handleCallback ⟨none, none, some "c", some "s"⟩ 0 ⟨200, "", "AT", some "RT", 3600⟩
          ⟨200, "u1", "a@b.com", "A"⟩ [("google_oauth_state:s", "req")]).kv
        tokenCalls := 0 } :=
  (callback_state_at_most_once ⟨none, none, some "c", some "s"⟩ 0 0
    ⟨200, "", "AT", some "RT", 3600⟩ ⟨200, "", "AT", some "RT", 3600⟩
    ⟨200, "u1", "a@b.com", "A"⟩ ⟨200, "u1", "a@b.com", "A"⟩
    [("google_oauth_state:s", "req")]
    (by decide) (by decide) (by decide)).2 "req" (by decide)

/-- C9: the pending state entry is deleted before the token endpoint is
contacted, so even when the code exchange or the user-info fetch fails, the
state is already consumed: a retry of the same callback finds no pending
state and fails with the invalid-state response instead of re-attempting
the exchange. -/
theorem callback_failure_consumes_state (p : CallbackParams) (now now2 : Int)
    (t t2 : AuthCodeTokenResponse) (u u2 : UserInfoResponse) (kv : KVStore) (v : String)
    (hErr : truthy p.error = false) (hCode : truthy p.code = true)
    (hState : truthy p.state = true)
    (hv : kvGet kv (stateKVKey (p.state.getD "")) = some v)
    (hFail : httpOk t.status = false ∨ truthy t.refresh_token = false ∨
      httpOk u.status = false) :
    kvGet ((handleCallback p now t u kv).kv) (stateKVKey (p.state.getD "")) = none ∧
    handleCallback p now2 t2 u2 ((handleCallback p now t u kv).kv) =
      { outcome := .invalidState, kv := (handleCallback p now t u kv).kv
        tokenCalls := 0 } := by
  have hkv := (handleCallback_found_kv p now t u kv v hErr hCode hState hv).1
  have hnone : kvGet ((handleCallback p now t u kv).kv) (stateKVKey (p.state.getD "")) = none := by
    rw [hkv]; exact kvGet_kvDelete kv (stateKVKey (p.state.getD ""))
  exact ⟨hnone, handleCallback_absent p now2 t2 u2 _ hErr hCode hState hnone⟩

/-- Witness for C9: a failed code exchange (HTTP 500) still consumes the
pending state, and the retry fails with the invalid-state response. -/
theorem callback_failure_consumes_state_witness :
    kvGet ((handleCallback ⟨none, none, some "c", some "s"⟩ 0 ⟨500, "err", "", none, 0⟩
        ⟨200, "u1", "a@b.com", "A"⟩ [("google_oauth_state:s", "req")]).kv)
      (stateKVKey ((some "s").getD "")) = none ∧
    handleCallback ⟨none, none, some "c", some "s"⟩ 0 ⟨500, "err", "", none, 0⟩
        ⟨200, "u1", "a@b.com", "A"⟩
        ((handleCallback ⟨none, none, some "c", some "s"⟩ 0 ⟨500, "err", "", none, 0⟩
          ⟨200, "u1", "a@b.com", "A"⟩ [("google_oauth_state:s", "req")]).kv) =
      { outcome := .invalidState
        kv := (handleCallback ⟨none, none, some "c", some "s"⟩ 0 ⟨500, "err", "", none, 0⟩
          ⟨200, "u1", "a@b.com", "A"⟩ [("google_oauth_state:s", "req")]).kv
        tokenCalls := 0 } :=
  callback_failure_consumes_state ⟨none, none, some "c", some "s"⟩ 0 0
    ⟨500, "err", "", none, 0⟩ ⟨500, "err", "", none, 0⟩
    ⟨200, "u1", "a@b.com", "A"⟩ ⟨200, "u1", "a@b.com", "A"⟩
    [("google_oauth_state:s", "req")] "req"
    (by decide) (by decide) (by decide) (by decide) (Or.inl (by decide))

/-! ## Helper lemmas for the multipart round trip -/

/-- Stripping a leading sequence from a sequence that starts with it yields
the remainder. -/
theorem stripLeading_append (p r : List Char) : stripLeading p (p ++ r) = some r := by
  have hpre : p.isPrefixOf (p ++ r) = true := by
    rw [List.isPrefixOf_iff_prefix]
    exact List.prefix_append p r
  simp [stripLeading, hpre, List.drop_left]

/-- `splitFirst` recovers the decomposition around an occurrence of `d`
when no occurrence of `d` starts strictly before it. -/
theorem splitFirst_append (d a b : List Char) (hd : d ≠ [])
    (h : containsSeq d (a ++ d.take (d.length - 1)) = false) :
    splitFirst d (a ++ d ++ b) = some (a, b) := by
  induction a with
  | nil =>
    cases d with
    | nil => exact absurd rfl hd
    | cons x ds =>
      have hpre : (x :: ds).isPrefixOf ((x :: ds) ++ b) = true := by
        rw [List.isPrefixOf_iff_prefix]
        exact List.prefix_append (x :: ds) b
      have hdrop : ((x :: ds) ++ b).drop (x :: ds).length = b := List.drop_left (x :: ds) b
      simp only [List.nil_append, List.cons_append, splitFirst] at hpre hdrop ⊢
      simp [hpre, hdrop]
  | cons x a' ih =>
    have hd0 : 0 < d.length := List.length_pos.mpr hd
    rw [containsSeq] at h
    simp only [List.cons_append, splitFirst, List.append_eq] at h
    by_cases hp : d.isPrefixOf (x :: (a' ++ d.take (d.length - 1))) = true
    · rw [if_pos hp] at h
      simp at h
    · rw [if_neg hp] at h
      simp only [Option.isSome_map'] at h
      have h' : containsSeq d (a' ++ d.take (d.length - 1)) = false := h
      have hlen9 : d.length ≤ (x :: (a' ++ d.take (d.length - 1))).length := by
        simp [List.length_take]
        omega
      have e : x :: (a' ++ d ++ b) =
          (x :: (a' ++ d.take (d.length - 1))) ++ (d.drop (d.length - 1) ++ b) := by
        simp only [List.cons_append, List.append_assoc]
        rw [← List.append_assoc (List.take (d.length - 1) d) (List.drop (d.length - 1) d) b,
          List.take_append_drop]
      have htake : (x :: (a' ++ d ++ b)).take d.length =
          (x :: (a' ++ d.take (d.length - 1))).take d.length := by
        rw [e, List.take_append_of_le_length hlen9]
      have hp2 : ¬ d.isPrefixOf (x :: (a' ++ d ++ b)) = true := by
        intro hc
        apply hp
        rw [List.isPrefixOf_iff_prefix, List.prefix_iff_eq_take] at hc ⊢
        rw [htake] at hc
        exact hc
      simp only [List.cons_append, splitFirst, List.append_eq]
      rw [if_neg hp2, ih h']
      rfl

/-- The encoded multipart body, as a character sequence, is the first-part
prefix, the metadata, a delimiter, the second part's header lead-in, the
content type, the blank line, the content, a delimiter and the closing
dashes. -/
theorem buildMultipart_data (m c t : String) :
    (buildMultipart m c t).1.data =
      part1Pre ++ m.data ++ delimL ++ ctPre ++ t.data ++ sepL
        ++ c.data ++ delimL ++ "--".data := by
  simp [buildMultipart, joinCRLF, part1Pre, delimL, ctPre, sepL, List.append_assoc]

/-! ## Claims about the multipart encoder -/

set_option maxRecDepth 8192 in
/-- C5 counterexample: the round trip fails as universally stated, because a
content string may itself contain the CRLF-prefixed boundary delimiter (the
boundary is a fixed constant), corrupting the part structure: with content
"x\r\n-------gdrive-mcp-boundary\r\ny" the decoder does not recover the
original metadata, content type and content. -/
theorem multipart_roundtrip_cex :
    ¬ decodeMultipart
        (buildMultipart "\x7b\x7d" "x\r\n-------gdrive-mcp-boundary\r\ny" "text/plain").1.data
      = some (("\x7b\x7d").data, "text/plain".data,
          ("x\r\n-------gdrive-mcp-boundary\r\ny").data) := by
  decide

/-- C5 (amended): provided neither the metadata JSON region nor the content
region contains an early occurrence of the boundary delimiter, and the
content type contains no blank-line separator, the encoder declares the
boundary in the returned content-type header, produces the CRLF-joined
two-part body with an `application/json` first-part header and the caller's
content type as the second-part header, and decoding recovers exactly the
original metadata JSON, content type and content. -/
theorem multipart_encode_decode (metadataJson content contentType : String)
    (h1 : containsSeq delimL
      (part1Pre ++ metadataJson.data ++ delimL.take (delimL.length - 1)) = false)
    (h2 : containsSeq delimL
      (ctPre ++ contentType.data ++ sepL ++ content.data
        ++ delimL.take (delimL.length - 1)) = false)
    (h3 : containsSeq sepL
      (contentType.data ++ sepL.take (sepL.length - 1)) = false) :
    (buildMultipart metadataJson content contentType).2
      = "multipart/related; boundary=" ++ mpBoundary ∧
    (buildMultipart metadataJson content contentType).1.data =
      part1Pre ++ metadataJson.data ++ delimL ++ ctPre ++ contentType.data ++ sepL
        ++ content.data ++ delimL ++ "--".data ∧
    decodeMultipart (buildMultipart metadataJson content contentType).1.data =
      some (metadataJson.data, contentType.data, content.data) := by
  refine ⟨rfl, buildMultipart_data _ _ _, ?_⟩
  have hbody : (buildMultipart metadataJson content contentType).1.data =
      (part1Pre ++ metadataJson.data) ++ delimL
        ++ ((ctPre ++ contentType.data ++ sepL ++ content.data) ++ delimL ++ "--".data) := by
    rw [buildMultipart_data]
    simp [List.append_assoc]
  have s1 : splitFirst delimL
      ((part1Pre ++ metadataJson.data) ++ delimL
        ++ ((ctPre ++ contentType.data ++ sepL ++ content.data) ++ delimL ++ "--".data)) =
      some (part1Pre ++ metadataJson.data,
        (ctPre ++ contentType.data ++ sepL ++ content.data) ++ delimL ++ "--".data) :=
    splitFirst_append _ _ _ (by decide) h1
  have s2 : splitFirst delimL
      ((ctPre ++ contentType.data ++ sepL ++ content.data) ++ delimL ++ "--".data) =
      some (ctPre ++ contentType.data ++ sepL ++ content.data, "--".data) :=
    splitFirst_append _ _ _ (by decide) h2
  have p1 : stripLeading part1Pre (part1Pre ++ metadataJson.data) = some metadataJson.data :=
    stripLeading_append _ _
  have p2 : stripLeading ctPre (ctPre ++ contentType.data ++ sepL ++ content.data) =
      some (contentType.data ++ sepL ++ content.data) := by
    rw [show ctPre ++ contentType.data ++ sepL ++ content.data
        = ctPre ++ (contentType.data ++ sepL ++ content.data) by simp [List.append_assoc]]
    exact stripLeading_append _ _
  have s3 : splitFirst sepL (contentType.data ++ sepL ++ content.data) =
      some (contentType.data, content.data) :=
    splitFirst_append _ _ _ (by decide) h3
  have hdd : ("--".data : List Char) = ['-', '-'] := rfl
  rw [hbody]
  simp only [decodeMultipart, s1, s2, p1, p2, s3, hdd]
  simp

set_option maxRecDepth 8192 in
/-- Witness for the amended C5: metadata `{"name":"a"}`, content `hello`,
content type `text/plain` round-trip exactly. -/
theorem multipart_encode_decode_witness :
    (buildMultipart "\x7b\"name\":\"a\"\x7d" "hello" "text/plain").2
      = "multipart/related; boundary=" ++ mpBoundary ∧
    (buildMultipart "\x7b\"name\":\"a\"\x7d" "hello" "text/plain").1.data =
      part1Pre ++ ("\x7b\"name\":\"a\"\x7d").data ++ delimL ++ ctPre ++ "text/plain".data
        ++ sepL ++ "hello".data ++ delimL ++ "--".data ∧
    decodeMultipart (buildMultipart "\x7b\"name\":\"a\"\x7d" "hello" "text/plain").1.data =
      some (("\x7b\"name\":\"a\"\x7d").data, "text/plain".data, "hello".data) :=
  multipart_encode_decode "\x7b\"name\":\"a\"\x7d" "hello" "text/plain"
    (by decide) (by decide) (by decide)
